import Mathlib

/-!
Verification development for the google-analytics-mcp server.

The embedding models, directly from the Python sources:
- `analytics_mcp/tools/utils.py`: the request-scoped credential holder
  (a `contextvars.ContextVar`), the credential resolver
  `_create_credentials`, and the property-identifier normalizer
  `construct_property_rn`;
- `analytics_mcp/server.py`: the HTTP endpoint `mcp_endpoint`;
- `analytics_mcp/tools/reporting/core.py`: the request-assembly part of
  `run_report`.

Python strings are modelled as lists of characters (`PyStr`), so that
slicing, strip, startswith and split translate to list operations.
The character-class functions follow Python semantics restricted to
ASCII, which is the alphabet all modelled values are drawn from.
-/

deriving instance DecidableEq for Except

namespace GA

/-- Python strings, as lists of characters. -/
abbrev PyStr := List Char

/-- Characters removed by Python `str.strip()` with no argument: the
ASCII characters on which `str.isspace()` is true — space, `\t`, `\n`,
`\x0b`, `\x0c`, `\r`, and the file, group, record and unit separators
`\x1c` to `\x1f`. -/
def isWS (c : Char) : Bool :=
  c = ' ' || c = '\t' || c = '\n' || c = '\r' || c = '\x0b' || c = '\x0c' ||
  c = '\x1c' || c = '\x1d' || c = '\x1e' || c = '\x1f'

/-- Python `str.strip()`: drop whitespace from both ends. -/
def pyStrip (s : PyStr) : PyStr :=
  ((s.dropWhile isWS).reverse.dropWhile isWS).reverse

/-- ASCII decimal digit test, the fragment of Python `str.isdigit`
relevant to the modelled inputs. -/
def isDigitChar (c : Char) : Bool := '0' ≤ c && c ≤ '9'

/-- Python `s.isdigit()`: nonempty and all characters are digits. -/
def pyIsDigit (s : PyStr) : Bool := !s.isEmpty && s.all isDigitChar

/-- Python `s.startswith(p)`. -/
def pyStartsWith (p s : PyStr) : Bool := List.isPrefixOf p s

/-- Python `s.split("/")[-1]`: the suffix after the last slash
(the whole string when no slash occurs). -/
def lastSegment (s : PyStr) : PyStr :=
  (s.reverse.takeWhile (fun c => c != '/')).reverse

/-- Python `int(s)` on a digit string. -/
def pyParseNat (s : PyStr) : Nat :=
  s.foldl (fun a c => 10 * a + (c.toNat - 48)) 0

/-- Fuel-driven most-significant-digit-first decimal rendering of a
positive number; structural recursion on the fuel keeps it reducible
by the kernel. -/
def toDecAux : Nat → Nat → PyStr
  | _, 0 => []
  | 0, _ + 1 => []
  | fuel + 1, n + 1 =>
      toDecAux fuel ((n + 1) / 10) ++ [Nat.digitChar ((n + 1) % 10)]

/-- Python `str(n)` for a nonnegative integer. -/
def natToPy (n : Nat) : PyStr := if n = 0 then ['0'] else toDecAux n n

/-- Python `str(i)` for an `int`. -/
def intToPy (i : Int) : PyStr :=
  if i < 0 then '-' :: natToPy (-i).toNat else natToPy i.toNat

/-- A Python value that can be passed as the `property_value`
argument: an `int` or a `str`. -/
inductive PyValue
  | int (n : Int)
  | str (s : PyStr)
deriving DecidableEq

/-- Errors raised by the modelled tools.  `invalidArgument` is the
`ValueError` of `construct_property_rn`, carrying the offending value
(after stripping, for string inputs, matching the reassignment in the
source). -/
inductive ToolError
  | invalidArgument (propertyValue : PyValue)
deriving DecidableEq

/-- From `analytics_mcp/tools/utils.py`, `construct_property_rn`:
returns a property resource name in the format required by the APIs.
An `int` input is used as the property number directly; a `str` input
is stripped, then taken whole if all digits, else the part after the
last slash is taken if the string starts with `properties/` and that
part is all digits; anything else raises `ValueError`. -/
def construct_property_rn (property_value : PyValue) : Except ToolError PyStr :=
  let property_num : Option Int :=
    match property_value with
    | .int n => some n
    | .str s0 =>
        let s := pyStrip s0
        if pyIsDigit s then some (pyParseNat s)
        else if pyStartsWith ("properties/".data) s then
          let numeric_part := lastSegment s
          if pyIsDigit numeric_part then some (pyParseNat numeric_part)
          else none
        else none
  match property_num with
  | none =>
      .error (.invalidArgument
        (match property_value with
         | .int n => .int n
         | .str s0 => .str (pyStrip s0)))
  | some n => .ok ("properties/".data ++ intToPy n)

/-! ## Credential holder and resolver (`analytics_mcp/tools/utils.py`) -/

/-- The fixed read-only scope for the Analytics Admin and Data APIs. -/
def _READ_ONLY_ANALYTICS_SCOPE : String :=
  "https://www.googleapis.com/auth/analytics.readonly"

/-- A credential object, as produced by the resolver: either OAuth2
credentials wrapping a caller-supplied bearer token, or Application
Default Credentials for an ambient identity configured in the hosting
environment. -/
inductive Credentials
  | oauth2 (token : PyStr) (scopes : List String)
  | adc (identity : String) (scopes : List String)
deriving DecidableEq

/-- Error raised when `google.auth.default` finds no ambient identity
(`DefaultCredentialsError`). -/
inductive AuthError
  | authenticationUnavailable
deriving DecidableEq

/-- Model of `google.auth.default(scopes=...)`: the hosting environment
either provides an ambient identity, yielding Application Default
Credentials with the requested scopes, or discovery fails. -/
def google_auth_default (ambient : Option String) (scopes : List String) :
    Except AuthError Credentials :=
  match ambient with
  | some identity => .ok (.adc identity scopes)
  | none => .error .authenticationUnavailable

/-- Python truthiness of an `Optional[str]`: `None` and the empty
string are falsy. -/
def pyTruthyStr : Option PyStr → Bool
  | none => false
  | some s => !s.isEmpty

/-- From `analytics_mcp/tools/utils.py`, `_create_credentials`: reads
the token of the current request context (passed here as `slot`, the
value held by the context variable for the current logical call); if
it is truthy, wraps it in OAuth2 credentials with the read-only scope;
otherwise falls back to Application Default Credentials with the same
scope. -/
def _create_credentials (slot : Option PyStr) (ambient : Option String) :
    Except AuthError Credentials :=
  let token := slot
  if pyTruthyStr token then
    .ok (.oauth2 (token.getD []) [_READ_ONLY_ANALYTICS_SCOPE])
  else
    google_auth_default ambient [_READ_ONLY_ANALYTICS_SCOPE]

/-! ## Context-variable semantics (`contextvars.ContextVar`)

`_current_access_token` is a `contextvars.ContextVar`.  Under the HTTP
server each inbound request is handled in its own asyncio task, and an
asyncio task runs in its own copy of the context, so a `set` performed
inside one logical call is visible only to that call: the variable
behaves as per-call state.  The state therefore maps each logical call
to the value of its copy of the variable. -/

/-- Identifier of a logical call (one inbound request task). -/
abbrev CallId := Nat

/-- The context-variable state: the value each logical call sees in
its own copy of the context. -/
def CtxState := CallId → Option PyStr

/-- Initial state: the variable was declared with `default=None`. -/
def initCtx : CtxState := fun _ => none

/-- `set_access_token(token)` executed inside logical call `c`:
updates only the context of `c`. -/
def set_access_token (c : CallId) (token : PyStr) (s : CtxState) : CtxState :=
  fun x => if x = c then some token else s x

/-- `get_access_token()` executed inside logical call `c`. -/
def get_access_token (c : CallId) (s : CtxState) : Option PyStr := s c

/-- `clear_access_token()` executed inside logical call `c`:
resets only the context of `c`. -/
def clear_access_token (c : CallId) (s : CtxState) : CtxState :=
  fun x => if x = c then none else s x

/-- An operation on the credential holder, as performed by a logical
call: setting a token, clearing it, or reading it during credential
resolution (reading does not change the state). -/
inductive TokOp
  | set (token : PyStr)
  | clear
  | get
deriving DecidableEq

/-- Effect of one step of an interleaved execution: call `c` performs
operation `o`. -/
def applyOp (c : CallId) (o : TokOp) (s : CtxState) : CtxState :=
  match o with
  | .set t => set_access_token c t s
  | .clear => clear_access_token c s
  | .get => s

/-- Run an interleaved trace of holder operations. -/
def runTrace (tr : List (CallId × TokOp)) (s : CtxState) : CtxState :=
  tr.foldl (fun s p => applyOp p.1 p.2 s) s

/-! ## HTTP endpoint (`analytics_mcp/server.py`, `mcp_endpoint`) -/

/-- A registered tool, as held by the tool manager: its description
(possibly `None`) and the effect of `await tool_info.fn(**arguments)`.
The function receives the value of the credential-holder slot for the
current call (tools read it through `get_access_token` when resolving
credentials) and the call arguments; it returns the serialized result,
or the message of a raised exception. -/
structure ToolInfo where
  description : Option String
  run : Option PyStr → List (String × String) → Except String String

/-- The registered tool catalog (`mcp._tool_manager._tools`). -/
structure ServerEnv where
  tools : List (String × ToolInfo)

/-- The parsed JSON body of an inbound request.  `method` comes from
`body.get("method", "")`; `name` and `arguments` come from the
`params` mapping (`params.get("name")`, `params.get("arguments", Map.empty)`),
absent keys giving `none`. -/
structure ReqBody where
  method : Option String
  name : Option String
  arguments : Option (List (String × String))
deriving DecidableEq

/-- An inbound HTTP request: the `Authorization` header, if sent, and
the outcome of `await request.json()` (an exception message when the
body is not valid JSON). -/
structure HttpRequest where
  authorization : Option PyStr
  body : Except String ReqBody

/-- The JSON body of a response, by shape: an error object
(`JSONResponse` with an `error` key), the tool list, a tool-call
content wrapper, or the `initialize` result. -/
inductive JsonBody
  | errorMsg (msg : String)
  | toolsList (tools : List (String × String))
  | content (text : String)
  | initResult
deriving DecidableEq

/-- Whether a response body is a JSON-shaped error object. -/
def isErrorBody : JsonBody → Bool
  | .errorMsg _ => true
  | _ => false

/-- An HTTP response: status code and JSON body. -/
structure HttpResponse where
  status : Nat
  body : JsonBody
deriving DecidableEq

/-- Lines 97 to 104 of `server.py`: read the `Authorization` header
(defaulting to the empty string), require the `Bearer ` prefix, and
strip the first seven characters to obtain the access token.  Returns
`none` exactly when the endpoint answers 401. -/
def extract_bearer_token (authorization : Option PyStr) : Option PyStr :=
  let auth_header := authorization.getD []
  if pyStartsWith ("Bearer ".data) auth_header then
    some (auth_header.drop 7)
  else
    none

/-- The `try` block of `mcp_endpoint`: dispatch on the parsed body.
`slot` is the credential-holder value set for this call, which a
dispatched tool observes.  Exceptions (a body that fails to parse, or
a tool that raises) are caught by the `except` clause and answered
with status 500. -/
def handle_request (env : ServerEnv) (body : Except String ReqBody)
    (slot : Option PyStr) : HttpResponse :=
  match body with
  | .error e => { status := 500, body := .errorMsg e }
  | .ok b =>
      let method := b.method.getD ""
      if method = "tools/list" then
        { status := 200,
          body := .toolsList (env.tools.map
            (fun p => (p.1, p.2.description.getD ""))) }
      else if method = "tools/call" then
        match b.name with
        | none => { status := 400, body := .errorMsg "Missing tool name" }
        | some tool_name =>
            if tool_name = "" then
              { status := 400, body := .errorMsg "Missing tool name" }
            else
              match List.lookup tool_name env.tools with
              | none =>
                  { status := 404,
                    body := .errorMsg ("Unknown tool: " ++ tool_name) }
              | some tool_info =>
                  match tool_info.run slot (b.arguments.getD []) with
                  | .ok r => { status := 200, body := .content r }
                  | .error e => { status := 500, body := .errorMsg e }
      else if method = "initialize" then
        { status := 200, body := .initResult }
      else
        { status := 400, body := .errorMsg ("Unknown method: " ++ method) }

/-- From `analytics_mcp/server.py`, `mcp_endpoint`: check the
`Authorization` header (401 if missing or malformed, leaving the
credential holder untouched); otherwise set the extracted token in the
context, handle the request under `try`, and in `finally` clear the
token.  The result pairs the response with the final value of the
credential-holder slot for this call. -/
def mcp_endpoint (env : ServerEnv) (req : HttpRequest)
    (slot0 : Option PyStr) : HttpResponse × Option PyStr :=
  match extract_bearer_token req.authorization with
  | none =>
      ({ status := 401,
         body := .errorMsg "Missing or invalid Authorization header" }, slot0)
  | some access_token =>
      let slot := some access_token
      (handle_request env req.body slot, none)

/-! ## Report request assembly (`analytics_mcp/tools/reporting/core.py`) -/

/-- A `data_v1beta.Dimension` name wrapper. -/
structure Dimension where
  name : String
deriving DecidableEq

/-- A `data_v1beta.Metric` name wrapper. -/
structure Metric where
  name : String
deriving DecidableEq

/-- A date-range mapping as received in the `date_ranges` argument. -/
structure DateRangeArg where
  start_date : String
  end_date : String
deriving DecidableEq

/-- A `data_v1beta.DateRange`, built from a date-range mapping by the
pass-through constructor. -/
structure DateRange where
  start_date : String
  end_date : String
deriving DecidableEq

/-- A filter-expression mapping (`dimension_filter` or
`metric_filter` argument): an opaque pass-through payload; only its
emptiness matters to the assembly control flow. -/
abbrev FilterDict := List (String × String)

/-- A `data_v1beta.FilterExpression`, built pass-through from a
mapping. -/
structure FilterExpression where
  spec : FilterDict
deriving DecidableEq

/-- An order-by mapping from the `order_bys` argument, opaque. -/
abbrev OrderByDict := List (String × String)

/-- A `data_v1beta.OrderBy`, built pass-through from a mapping. -/
structure OrderBy where
  spec : OrderByDict
deriving DecidableEq

/-- Python truthiness of an `Optional` mapping or list argument:
`None` and the empty collection are falsy. -/
def pyTruthyList {α : Type} : Option (List α) → Bool
  | none => false
  | some l => !l.isEmpty

/-- Python truthiness of an `Optional[int]`: `None` and `0` are
falsy. -/
def pyTruthyInt : Option Int → Bool
  | none => false
  | some i => i != 0

/-- Python truthiness of an `Optional[str]` argument. -/
def pyTruthyString : Option String → Bool
  | none => false
  | some s => !s.isEmpty

/-- The assembled `data_v1beta.RunReportRequest`.  `property`,
`dimensions`, `metrics`, `date_ranges` and `return_property_quota` are
set by the constructor; the remaining fields are unset (`none`) unless
a conditional assignment applies them. -/
structure RunReportRequest where
  property : PyStr
  dimensions : List Dimension
  metrics : List Metric
  date_ranges : List DateRange
  return_property_quota : Bool
  dimension_filter : Option FilterExpression
  metric_filter : Option FilterExpression
  order_bys : Option (List OrderBy)
  limit : Option Int
  offset : Option Int
  currency_code : Option String
deriving DecidableEq

/-- From `analytics_mcp/tools/reporting/core.py`, `run_report`, lines
141 to 169: the assembly of the outbound request.  The constructor
sets the normalized property, the wrapped dimension and metric names,
the date ranges and the quota flag; each `if <arg>:` statement then
assigns the corresponding optional field exactly when the argument is
truthy, rendered here as conditional field values.  A `ValueError`
from `construct_property_rn` aborts the assembly. -/
def build_run_report_request (property_id : PyValue)
    (date_ranges : List DateRangeArg) (dimensions : List String)
    (metrics : List String) (dimension_filter : Option FilterDict)
    (metric_filter : Option FilterDict)
    (order_bys : Option (List OrderByDict)) (limit : Option Int)
    (offset : Option Int) (currency_code : Option String)
    (return_property_quota : Bool) : Except ToolError RunReportRequest :=
  match construct_property_rn property_id with
  | .error e => .error e
  | .ok prop =>
      .ok
        { property := prop
          dimensions := dimensions.map (fun d => { name := d })
          metrics := metrics.map (fun m => { name := m })
          date_ranges := date_ranges.map
            (fun dr => { start_date := dr.start_date, end_date := dr.end_date })
          return_property_quota := return_property_quota
          dimension_filter :=
            if pyTruthyList dimension_filter then
              some { spec := dimension_filter.getD [] }
            else none
          metric_filter :=
            if pyTruthyList metric_filter then
              some { spec := metric_filter.getD [] }
            else none
          order_bys :=
            if pyTruthyList order_bys then
              some ((order_bys.getD []).map (fun ob => { spec := ob }))
            else none
          limit := if pyTruthyInt limit then limit else none
          offset := if pyTruthyInt offset then offset else none
          currency_code :=
            if pyTruthyString currency_code then currency_code else none }

/-! ## Lemmas about the decimal rendering and the normalizer -/

lemma digitChar_toNat {d : Nat} (hd : d < 10) :
    (Nat.digitChar d).toNat = 48 + d := by
  interval_cases d <;> rfl

lemma digitChar_isDigit {d : Nat} (hd : d < 10) :
    isDigitChar (Nat.digitChar d) = true := by
  interval_cases d <;> rfl

lemma isDigitChar_not_ws {c : Char} (h : isDigitChar c = true) :
    isWS c = false := by
  by_contra hws
  simp only [Bool.not_eq_false, isWS, Bool.or_eq_true, decide_eq_true_eq] at hws
  rcases hws with (((((((((h1 | h1) | h1) | h1) | h1) | h1) | h1) | h1) | h1)
    | h1) <;> subst h1 <;> exact absurd h (by decide)

lemma isDigitChar_ne_slash {c : Char} (h : isDigitChar c = true) :
    (c != '/') = true := by
  by_contra hs
  simp only [bne_iff_ne, ne_eq, Bool.not_eq_true, Bool.not_eq_false,
    decide_eq_true_eq, not_not] at hs
  subst hs
  exact absurd h (by decide)

lemma toDecAux_eq_digits :
    ∀ (fuel n : Nat), n ≤ fuel →
      toDecAux fuel n = ((Nat.digits 10 n).map Nat.digitChar).reverse := by
  intro fuel
  induction fuel with
  | zero =>
      intro n hn
      interval_cases n
      simp [toDecAux]
  | succ fuel ih =>
      intro n hn
      match n with
      | 0 => simp [toDecAux]
      | m + 1 =>
          have hpos : 0 < m + 1 := Nat.succ_pos m
          have hdiv : (m + 1) / 10 ≤ fuel := by
            have : (m + 1) / 10 < m + 1 := Nat.div_lt_self hpos (by norm_num)
            omega
          rw [Nat.digits_def' (by norm_num : (1 : Nat) < 10) hpos]
          simp only [toDecAux, List.map_cons, List.reverse_cons]
          rw [ih _ hdiv]

lemma natToPy_eq_digits (n : Nat) :
    natToPy n =
      if n = 0 then ['0'] else ((Nat.digits 10 n).map Nat.digitChar).reverse := by
  by_cases h : n = 0
  · simp [natToPy, h]
  · simp only [natToPy, h, if_false]
    exact toDecAux_eq_digits n n le_rfl

lemma natToPy_all_digits {c : Char} {n : Nat} (hc : c ∈ natToPy n) :
    isDigitChar c = true := by
  rw [natToPy_eq_digits] at hc
  by_cases h : n = 0
  · simp [h] at hc
    subst hc
    decide
  · simp only [h, if_false, List.mem_reverse, List.mem_map] at hc
    obtain ⟨d, hd, rfl⟩ := hc
    exact digitChar_isDigit (Nat.digits_lt_base (by norm_num) hd)

lemma natToPy_ne_nil (n : Nat) : natToPy n ≠ [] := by
  rw [natToPy_eq_digits]
  by_cases h : n = 0
  · simp [h]
  · simp only [h, if_false, ne_eq, List.reverse_eq_nil_iff, List.map_eq_nil_iff]
    exact Nat.digits_ne_nil_iff_ne_zero.mpr h

lemma natToPy_isdigit (n : Nat) : pyIsDigit (natToPy n) = true := by
  simp only [pyIsDigit, Bool.and_eq_true, Bool.not_eq_true]
  refine ⟨?_, ?_⟩
  · simp [List.isEmpty_iff, natToPy_ne_nil n]
  · exact List.all_eq_true.mpr (fun c hc => natToPy_all_digits hc)

lemma foldr_parse_eq_ofDigits (L : List Nat) (hL : ∀ d ∈ L, d < 10) :
    L.foldr (fun d a => 10 * a + ((Nat.digitChar d).toNat - 48)) 0 =
      Nat.ofDigits 10 L := by
  induction L with
  | nil => rfl
  | cons d L ih =>
      have hd : d < 10 := hL d (List.mem_cons_self d L)
      have ih' := ih (fun x hx => hL x (List.mem_cons_of_mem d hx))
      simp only [List.foldr_cons, ih', Nat.ofDigits_cons,
        digitChar_toNat hd]
      omega

lemma pyParseNat_natToPy (n : Nat) : pyParseNat (natToPy n) = n := by
  rw [natToPy_eq_digits]
  by_cases h : n = 0
  · simp [h, pyParseNat]
  · simp only [h, if_false, pyParseNat, List.foldl_reverse, List.foldr_map]
    have := foldr_parse_eq_ofDigits (Nat.digits 10 n)
      (fun d hd => Nat.digits_lt_base (by norm_num) hd)
    simpa [this] using Nat.ofDigits_digits 10 n

lemma intToPy_natCast (n : Nat) : intToPy (n : Int) = natToPy n := by
  simp [intToPy, Int.toNat_natCast]

lemma intToPy_of_nonneg {i : Int} (h : 0 ≤ i) : intToPy i = natToPy i.toNat := by
  simp [intToPy, not_lt.mpr h]

lemma dropWhile_eq_self_of_none {p : Char → Bool} {s : PyStr}
    (h : ∀ c ∈ s, p c = false) : s.dropWhile p = s := by
  cases s with
  | nil => rfl
  | cons a t =>
      have ha : p a = false := h a (List.mem_cons_self a t)
      simp [List.dropWhile_cons, ha]

lemma pyStrip_eq_self {s : PyStr} (h : ∀ c ∈ s, isWS c = false) :
    pyStrip s = s := by
  unfold pyStrip
  rw [dropWhile_eq_self_of_none h,
    dropWhile_eq_self_of_none (fun c hc => h c (List.mem_reverse.mp hc)),
    List.reverse_reverse]

lemma isPrefixOf_append_self : ∀ (l t : PyStr), List.isPrefixOf l (l ++ t) = true := by
  intro l t
  induction l with
  | nil => simp [List.isPrefixOf]
  | cons a l ih => simp [List.isPrefixOf, ih]

lemma takeWhile_append_stop {p : Char → Bool} {l : PyStr} (y : Char)
    (ys : PyStr) (hl : ∀ c ∈ l, p c = true) (hy : p y = false) :
    (l ++ y :: ys).takeWhile p = l := by
  induction l with
  | nil => simp [List.takeWhile_cons, hy]
  | cons a t ih =>
      have ha : p a = true := hl a (List.mem_cons_self a t)
      simp only [List.cons_append, List.takeWhile_cons, ha, if_true]
      rw [ih (fun c hc => hl c (List.mem_cons_of_mem a hc))]

lemma props_prefix_not_ws : ∀ c ∈ "properties/".data, isWS c = false := by
  decide

/-- The stripped form of `properties/` followed by digits is itself. -/
lemma pyStrip_props (n : Nat) :
    pyStrip ("properties/".data ++ natToPy n) = "properties/".data ++ natToPy n := by
  refine pyStrip_eq_self (fun c hc => ?_)
  rcases List.mem_append.mp hc with h | h
  · exact props_prefix_not_ws c h
  · exact isDigitChar_not_ws (natToPy_all_digits h)

lemma pyIsDigit_props (n : Nat) :
    pyIsDigit ("properties/".data ++ natToPy n) = false := by
  simp only [pyIsDigit, List.all_append]
  have : List.all "properties/".data isDigitChar = false := by decide
  simp [this]

lemma lastSegment_props (n : Nat) :
    lastSegment ("properties/".data ++ natToPy n) = natToPy n := by
  unfold lastSegment
  rw [List.reverse_append]
  have hrev : ("properties/".data).reverse = '/' :: "seitreporp".data := by decide
  rw [hrev, takeWhile_append_stop '/' ("seitreporp".data)
    (fun c hc => isDigitChar_ne_slash (natToPy_all_digits (List.mem_reverse.mp hc)))
    (by decide), List.reverse_reverse]

/-- Evaluation of the normalizer on an integer input. -/
lemma construct_int (n : Int) :
    construct_property_rn (.int n) = .ok ("properties/".data ++ intToPy n) := rfl

/-- Evaluation of the normalizer on the numeric string of `n`. -/
lemma construct_numeric (n : Nat) :
    construct_property_rn (.str (natToPy n)) =
      .ok ("properties/".data ++ natToPy n) := by
  have hstrip : pyStrip (natToPy n) = natToPy n :=
    pyStrip_eq_self (fun c hc => isDigitChar_not_ws (natToPy_all_digits hc))
  simp only [construct_property_rn, hstrip, natToPy_isdigit n, if_true,
    pyParseNat_natToPy n, intToPy_natCast n]

/-- Evaluation of the normalizer on `properties/` followed by the
numeric string of `n`. -/
lemma construct_prefixed (n : Nat) :
    construct_property_rn (.str ("properties/".data ++ natToPy n)) =
      .ok ("properties/".data ++ natToPy n) := by
  simp only [construct_property_rn, pyStrip_props n, pyIsDigit_props n,
    if_false, Bool.false_eq_true, pyStartsWith, isPrefixOf_append_self,
    if_true, lastSegment_props n, natToPy_isdigit n, pyParseNat_natToPy n,
    intToPy_natCast n]

/-- Success inversion for string inputs: a successful normalization of
a string always yields `properties/` followed by the digits of a
natural number. -/
lemma construct_str_ok {s r : PyStr}
    (h : construct_property_rn (.str s) = .ok r) :
    ∃ m : Nat, r = "properties/".data ++ natToPy m := by
  unfold construct_property_rn at h
  by_cases h1 : pyIsDigit (pyStrip s) = true
  · simp only [h1, if_true, intToPy_natCast] at h
    injection h with h2
    exact ⟨pyParseNat (pyStrip s), h2.symm⟩
  · simp only [h1, if_false] at h
    by_cases h2 : pyStartsWith ("properties/".data) (pyStrip s) = true
    · simp only [h2, if_true] at h
      by_cases h3 : pyIsDigit (lastSegment (pyStrip s)) = true
      · simp only [h3, if_true, intToPy_natCast] at h
        injection h with h4
        exact ⟨pyParseNat (lastSegment (pyStrip s)), h4.symm⟩
      · simp [h3] at h
    · simp [h2] at h

/-! ## Lemmas about the credential-holder trace semantics -/

lemma applyOp_other {c x : CallId} (o : TokOp) (s : CtxState) (h : c ≠ x) :
    applyOp x o s c = s c := by
  cases o with
  | set t => simp [applyOp, set_access_token, h]
  | clear => simp [applyOp, clear_access_token, h]
  | get => rfl

lemma runTrace_append (a b : List (CallId × TokOp)) (s : CtxState) :
    runTrace (a ++ b) s = runTrace b (runTrace a s) := by
  simp [runTrace, List.foldl_append]

lemma runTrace_cons (p : CallId × TokOp) (tr : List (CallId × TokOp))
    (s : CtxState) : runTrace (p :: tr) s = runTrace tr (applyOp p.1 p.2 s) := rfl

/-- Steps of other calls never change the slot a call observes. -/
lemma runTrace_other {c : CallId} :
    ∀ (tr : List (CallId × TokOp)) (s : CtxState),
      (∀ p ∈ tr, p.1 ≠ c) → runTrace tr s c = s c := by
  intro tr
  induction tr with
  | nil => intro s _; rfl
  | cons p tr ih =>
      intro s h
      rw [runTrace_cons,
        ih _ (fun q hq => h q (List.mem_cons_of_mem p hq)),
        applyOp_other _ _ (fun hc => h p (List.mem_cons_self p tr) hc.symm)]

/-- A call whose only sets store `tok` can never observe a different
token `tok2`. -/
lemma runTrace_only_token {c : CallId} {tok tok2 : PyStr} (hne : tok ≠ tok2) :
    ∀ (tr : List (CallId × TokOp)) (s : CtxState),
      (∀ t, (c, TokOp.set t) ∈ tr → t = tok) →
      s c ≠ some tok2 → runTrace tr s c ≠ some tok2 := by
  intro tr
  induction tr with
  | nil => intro s _ hs; exact hs
  | cons p tr ih =>
      intro s hset hs
      rw [runTrace_cons]
      refine ih _ (fun t ht => hset t (List.mem_cons_of_mem p ht)) ?_
      by_cases hc : p.1 = c
      · cases p with
        | mk x o =>
            simp only at hc
            subst hc
            cases o with
            | set t =>
                have : t = tok := hset t (List.mem_cons_self _ tr)
                subst this
                simp [applyOp, set_access_token, hne]
            | clear => simp [applyOp, clear_access_token]
            | get => exact hs
      · rw [applyOp_other _ _ (fun h => hc h.symm)]
        exact hs

/-- After a call sets a token, the call observes that token for as
long as its own subsequent steps are only reads, whatever the other
calls do in between. -/
lemma runTrace_set_then_gets {c : CallId} {tok : PyStr} :
    ∀ (tr : List (CallId × TokOp)) (s : CtxState),
      (∀ p ∈ tr, p.1 = c → p.2 = TokOp.get) →
      s c = some tok → runTrace tr s c = some tok := by
  intro tr
  induction tr with
  | nil => intro s _ hs; exact hs
  | cons p tr ih =>
      intro s hget hs
      rw [runTrace_cons]
      refine ih _ (fun q hq => hget q (List.mem_cons_of_mem p hq)) ?_
      by_cases hc : p.1 = c
      · have : p.2 = TokOp.get := hget p (List.mem_cons_self p tr) hc
        rw [this]
        exact hs
      · rw [applyOp_other _ _ (fun h => hc h.symm)]
        exact hs

/-! ## Claims -/

/-- C4: for every valid property input of the three accepted shapes —
an integer `n`, the numeric string of `n`, or the string `properties/`
followed by the digits of `n` — `construct_property_rn` succeeds and
returns the canonical string `properties/<n>` with the same `n`; in
particular the integer form `12345` and the two string forms yield an
identical result. -/
theorem C4_normalizer_valid_shapes :
    (∀ n : Nat,
      construct_property_rn (.int (n : Int)) =
        .ok ("properties/".data ++ natToPy n) ∧
      construct_property_rn (.str (natToPy n)) =
        .ok ("properties/".data ++ natToPy n) ∧
      construct_property_rn (.str ("properties/".data ++ natToPy n)) =
        .ok ("properties/".data ++ natToPy n)) ∧
    construct_property_rn (.int 12345) =
      construct_property_rn (.str "12345".data) ∧
    construct_property_rn (.int 12345) =
      construct_property_rn (.str "properties/12345".data) := by
  refine ⟨fun n => ⟨?_, construct_numeric n, construct_prefixed n⟩, ?_, ?_⟩
  · rw [construct_int, intToPy_natCast]
  · decide
  · decide

/-- C5 counterexample: three inputs outside the three accepted shapes
that `construct_property_rn` nevertheless accepts, contradicting the
claim that every such input fails with `InvalidArgument`: the negative
integer `-5` (accepted verbatim, yielding the property string for
`-5`), the string `properties/12/34` (accepted through its last
slash-separated segment, yielding `properties/34`), and the
whitespace-padded numeral, accepted after stripping. -/
theorem C5_counterexample :
    construct_property_rn (.int (-5)) = .ok ("properties/-5".data) ∧
    construct_property_rn (.str "properties/12/34".data) =
      .ok ("properties/34".data) ∧
    construct_property_rn (.str "  123  ".data) =
      .ok ("properties/123".data) := by
  decide

/-- C5 (amended): integer inputs never fail — any integer `n`,
negative ones included, yields the property string for `n` verbatim —
and a string input fails with `InvalidArgument` (carrying the stripped
value) exactly when its stripped form is not all digits and also not a
string that starts with `properties/` and whose last slash-separated
segment is all digits.  In particular non-digit strings such as `abc`
and malformed prefixes such as `properties/abc` fail, while strings
such as `properties/12/34` and whitespace-padded numerals are
accepted. -/
theorem C5_invalid_inputs :
    (∀ s : PyStr,
      construct_property_rn (.str s) =
          .error (.invalidArgument (.str (pyStrip s))) ↔
        pyIsDigit (pyStrip s) = false ∧
          (pyStartsWith ("properties/".data) (pyStrip s) = false ∨
            pyIsDigit (lastSegment (pyStrip s)) = false)) ∧
    (∀ n : Int,
      construct_property_rn (.int n) =
        .ok ("properties/".data ++ intToPy n)) := by
  constructor
  · intro s
    constructor
    · intro herr
      by_cases h1 : pyIsDigit (pyStrip s) = true
      · unfold construct_property_rn at herr
        simp [h1] at herr
      · have h1f : pyIsDigit (pyStrip s) = false := by simpa using h1
        refine ⟨h1f, ?_⟩
        by_cases h2 : pyStartsWith ("properties/".data) (pyStrip s) = true
        · by_cases h3 : pyIsDigit (lastSegment (pyStrip s)) = true
          · unfold construct_property_rn at herr
            simp [h1f, h2, h3] at herr
          · exact Or.inr (by simpa using h3)
        · exact Or.inl (by simpa using h2)
    · intro h
      obtain ⟨h1, h2⟩ := h
      unfold construct_property_rn
      simp only [h1, Bool.false_eq_true, if_false]
      rcases h2 with h2 | h2
      · simp [h2]
      · by_cases h3 : pyStartsWith ("properties/".data) (pyStrip s) = true
        · simp [h3, h2]
        · simp [h3]
  · intro n
    exact construct_int n

/-- C5 witness: the string `abc` satisfies the amended error
condition and is rejected with `InvalidArgument`. -/
theorem C5_invalid_inputs_witness :
    construct_property_rn (.str "abc".data) =
      .error (.invalidArgument (.str "abc".data)) := by
  have h := (C5_invalid_inputs.1 ("abc".data)).mpr
    ⟨by decide, Or.inl (by decide)⟩
  rw [show pyStrip "abc".data = "abc".data from by decide] at h
  exact h

/-- C10 counterexample: on the integer input `-5` the normalizer
succeeds with the result `properties` slash `-5`, but applying it again to that
result fails, so the normalizer is not idempotent on all of its own
outputs. -/
theorem C10_counterexample :
    construct_property_rn (.int (-5)) = .ok ("properties/-5".data) ∧
    construct_property_rn (.str "properties/-5".data) =
      .error (.invalidArgument (.str "properties/-5".data)) := by
  decide

/-- C10 (amended): `construct_property_rn` is idempotent on the
outputs it produces from string inputs and from nonnegative integer
inputs: whenever it succeeds on such an input with result `r`,
applying it to `r` succeeds and returns `r` again.  (Outputs produced
from negative integer inputs are rejected when fed back in.) -/
theorem C10_idempotent_on_nonneg :
    ∀ (v : PyValue) (r : PyStr),
      construct_property_rn v = .ok r →
      (∀ n : Int, v = .int n → 0 ≤ n) →
      construct_property_rn (.str r) = .ok r := by
  intro v r hok hnn
  cases v with
  | int n =>
      have hn : 0 ≤ n := hnn n rfl
      rw [construct_int n, intToPy_of_nonneg hn] at hok
      injection hok with hr
      rw [← hr]
      exact construct_prefixed n.toNat
  | str s =>
      obtain ⟨m, rfl⟩ := construct_str_ok hok
      exact construct_prefixed m

/-- C10 witness: normalizing the numeric string `7` yields
`properties/7`, and normalizing that output returns it unchanged. -/
theorem C10_idempotent_witness :
    construct_property_rn (.str "properties/7".data) =
      .ok ("properties/7".data) :=
  C10_idempotent_on_nonneg (.str "7".data) ("properties/7".data)
    (by decide) (fun n h => nomatch h)

/-- C3 counterexample: in the holder state where the empty-string
token is present, the claim requires an OAuth2 credential wrapping
that token, but `_create_credentials` treats the empty token as absent
and returns ambient default credentials instead. -/
theorem C3_counterexample :
    _create_credentials (some "".data) (some "ambient-service-account") =
      .ok (.adc "ambient-service-account" [_READ_ONLY_ANALYTICS_SCOPE]) ∧
    _create_credentials (some "".data) (some "ambient-service-account") ≠
      .ok (.oauth2 "".data [_READ_ONLY_ANALYTICS_SCOPE]) := by
  decide

/-- C3 (amended): if a nonempty token is present, `_create_credentials`
returns an OAuth2 credential wrapping exactly that bearer token with
the fixed read-only analytics scope; if no token is present or the
present token is the empty string, it returns the result of ambient
default credential discovery (`google.auth.default`) requested with
the same read-only scope. -/
theorem C3_resolver_cases :
    ∀ (slot : Option PyStr) (ambient : Option String),
      (∀ t, slot = some t → t ≠ [] →
        _create_credentials slot ambient =
          .ok (.oauth2 t [_READ_ONLY_ANALYTICS_SCOPE])) ∧
      ((slot = none ∨ slot = some []) →
        _create_credentials slot ambient =
          google_auth_default ambient [_READ_ONLY_ANALYTICS_SCOPE]) := by
  intro slot ambient
  constructor
  · intro t hslot hne
    subst hslot
    simp [_create_credentials, pyTruthyStr, List.isEmpty_iff, hne]
  · intro h
    rcases h with h | h <;> subst h <;> rfl

/-- C3 witness: with the token `tok` present, the resolver returns
OAuth2 credentials wrapping `tok` with the read-only scope. -/
theorem C3_resolver_witness :
    _create_credentials (some "tok".data) none =
      .ok (.oauth2 "tok".data [_READ_ONLY_ANALYTICS_SCOPE]) :=
  (C3_resolver_cases (some "tok".data) none).1 ("tok".data) rfl (by decide)

/-- C6: with no per-call token set (the holder is falsy) and ambient
default credential discovery failing, credential resolution fails with
`AuthenticationUnavailable`; and an error raised inside a dispatched
tool propagates to the caller of the tool invocation — the endpoint
answers it with a 500 response carrying the error message, rather than
silently swallowing it. -/
theorem C6_auth_unavailable_propagates :
    (∀ slot : Option PyStr, pyTruthyStr slot = false →
      _create_credentials slot none = .error .authenticationUnavailable) ∧
    (∀ (env : ServerEnv) (req : HttpRequest) (slot0 : Option PyStr)
        (tok : PyStr) (b : ReqBody) (name : String) (ti : ToolInfo)
        (e : String),
      extract_bearer_token req.authorization = some tok →
      req.body = .ok b →
      b.method.getD "" = "tools/call" →
      b.name = some name → name ≠ "" →
      List.lookup name env.tools = some ti →
      ti.run (some tok) (b.arguments.getD []) = .error e →
      (mcp_endpoint env req slot0).1 =
        { status := 500, body := .errorMsg e }) := by
  constructor
  · intro slot h
    simp [_create_credentials, h, google_auth_default]
  · intro env req slot0 tok b name ti e hext hbody hm hname hne hlookup hrun
    simp only [mcp_endpoint, hext]
    rw [hbody]
    simp only [handle_request, hm, hname, hne, hlookup, hrun]
    simp

/-- C6 witness: a server whose only tool raises an authentication
error answers a well-formed call to it with status 500 and the error
message, and the bare resolver fails as claimed. -/
theorem C6_witness :
    _create_credentials none none = .error .authenticationUnavailable ∧
    (mcp_endpoint
        ⟨[("run_report",
           ⟨none, fun _ _ => .error "AuthenticationUnavailable"⟩)]⟩
        ⟨some ("Bearer tok".data),
         .ok ⟨some "tools/call", some "run_report", none⟩⟩
        none).1 =
      { status := 500, body := .errorMsg "AuthenticationUnavailable" } :=
  ⟨C6_auth_unavailable_propagates.1 none rfl,
   C6_auth_unavailable_propagates.2
     ⟨[("run_report", ⟨none, fun _ _ => .error "AuthenticationUnavailable"⟩)]⟩
     ⟨some ("Bearer tok".data),
      .ok ⟨some "tools/call", some "run_report", none⟩⟩
     none ("tok".data) ⟨some "tools/call", some "run_report", none⟩
     "run_report" ⟨none, fun _ _ => .error "AuthenticationUnavailable"⟩
     "AuthenticationUnavailable" (by decide) rfl rfl rfl (by decide) rfl rfl⟩

/-- C2: whenever the `Authorization` header check passes — so
`set_access_token` was called — the endpoint leaves the credential
holder cleared on every exit path (normal return, handled error
response, and raised exception), and a subsequent credential
resolution in the same execution context that sets no token resolves
to ambient default credentials rather than a leftover token. -/
theorem C2_clear_on_all_paths :
    ∀ (env : ServerEnv) (req : HttpRequest) (slot0 : Option PyStr)
      (tok : PyStr),
      extract_bearer_token req.authorization = some tok →
      (mcp_endpoint env req slot0).2 = none ∧
      (∀ identity : String,
        _create_credentials (mcp_endpoint env req slot0).2 (some identity) =
          .ok (.adc identity [_READ_ONLY_ANALYTICS_SCOPE])) := by
  intro env req slot0 tok hext
  constructor
  · simp [mcp_endpoint, hext]
  · intro identity
    simp [mcp_endpoint, hext, _create_credentials, pyTruthyStr,
      google_auth_default]

/-- C2 witness: a request whose body fails to parse (the raised
exception path) still ends with the holder cleared, and resolution
afterwards yields ambient default credentials. -/
theorem C2_clear_witness :
    (mcp_endpoint ⟨[]⟩ ⟨some ("Bearer abc".data), .error "json parse error"⟩
        (some "stale".data)).2 = none ∧
    (∀ identity : String,
      _create_credentials
          (mcp_endpoint ⟨[]⟩
            ⟨some ("Bearer abc".data), .error "json parse error"⟩
            (some "stale".data)).2 (some identity) =
        .ok (.adc identity [_READ_ONLY_ANALYTICS_SCOPE])) :=
  C2_clear_on_all_paths ⟨[]⟩
    ⟨some ("Bearer abc".data), .error "json parse error"⟩
    (some "stale".data) ("abc".data) (by decide)

/-- C8: the endpoint's status codes — 401 when the `Authorization`
header is missing or does not carry the `Bearer ` form, 400 when the
call is malformed (unknown method, or missing tool name in a
`tools/call`), 404 when the named tool is not in the registered
catalog, and 500 when an unhandled failure occurs (unparsable body or
an exception raised while running the tool); each such response
carries a JSON-shaped error body. -/
theorem C8_status_codes :
    ∀ (env : ServerEnv) (req : HttpRequest) (slot0 : Option PyStr),
      (extract_bearer_token req.authorization = none →
        (mcp_endpoint env req slot0).1.status = 401 ∧
        isErrorBody (mcp_endpoint env req slot0).1.body = true) ∧
      (∀ tok b, extract_bearer_token req.authorization = some tok →
        req.body = .ok b →
        b.method.getD "" ≠ "tools/list" →
        b.method.getD "" ≠ "tools/call" →
        b.method.getD "" ≠ "initialize" →
        (mcp_endpoint env req slot0).1.status = 400 ∧
        isErrorBody (mcp_endpoint env req slot0).1.body = true) ∧
      (∀ tok b, extract_bearer_token req.authorization = some tok →
        req.body = .ok b →
        b.method.getD "" = "tools/call" →
        (b.name = none ∨ b.name = some "") →
        (mcp_endpoint env req slot0).1.status = 400 ∧
        isErrorBody (mcp_endpoint env req slot0).1.body = true) ∧
      (∀ tok b name, extract_bearer_token req.authorization = some tok →
        req.body = .ok b →
        b.method.getD "" = "tools/call" →
        b.name = some name → name ≠ "" →
        List.lookup name env.tools = none →
        (mcp_endpoint env req slot0).1.status = 404 ∧
        isErrorBody (mcp_endpoint env req slot0).1.body = true) ∧
      (∀ tok e, extract_bearer_token req.authorization = some tok →
        req.body = .error e →
        (mcp_endpoint env req slot0).1.status = 500 ∧
        isErrorBody (mcp_endpoint env req slot0).1.body = true) ∧
      (∀ tok b name ti e, extract_bearer_token req.authorization = some tok →
        req.body = .ok b →
        b.method.getD "" = "tools/call" →
        b.name = some name → name ≠ "" →
        List.lookup name env.tools = some ti →
        ti.run (some tok) (b.arguments.getD []) = .error e →
        (mcp_endpoint env req slot0).1.status = 500 ∧
        isErrorBody (mcp_endpoint env req slot0).1.body = true) := by
  intro env req slot0
  refine ⟨?_, ?_, ?_, ?_, ?_, ?_⟩
  · intro hext
    simp [mcp_endpoint, hext, isErrorBody]
  · intro tok b hext hbody h1 h2 h3
    simp only [mcp_endpoint, hext]
    rw [hbody]
    simp [handle_request, h1, h2, h3, isErrorBody]
  · intro tok b hext hbody hm hname
    simp only [mcp_endpoint, hext]
    rw [hbody]
    rcases hname with hname | hname <;>
      simp [handle_request, hm, hname, isErrorBody]
  · intro tok b name hext hbody hm hname hne hlookup
    simp only [mcp_endpoint, hext]
    rw [hbody]
    simp [handle_request, hm, hname, hne, hlookup, isErrorBody]
  · intro tok e hext hbody
    simp only [mcp_endpoint, hext]
    rw [hbody]
    simp [handle_request, isErrorBody]
  · intro tok b name ti e hext hbody hm hname hne hlookup hrun
    simp only [mcp_endpoint, hext]
    rw [hbody]
    simp [handle_request, hm, hname, hne, hlookup, hrun, isErrorBody]

/-- C8 witness: a request with no `Authorization` header is answered
with status 401 and a JSON error body. -/
theorem C8_status_witness :
    (mcp_endpoint ⟨[]⟩ ⟨none, .error "x"⟩ none).1.status = 401 ∧
    isErrorBody (mcp_endpoint ⟨[]⟩ ⟨none, .error "x"⟩ none).1.body = true :=
  (C8_status_codes ⟨[]⟩ ⟨none, .error "x"⟩ none).1 rfl

/-- Every response produced under the `try` block has one of the
statuses 200, 400, 404 or 500; in particular it is never 401. -/
lemma handle_request_status_ne_401 (env : ServerEnv)
    (body : Except String ReqBody) (slot : Option PyStr) :
    (handle_request env body slot).status ≠ 401 := by
  unfold handle_request
  rcases body with e | b
  · simp
  · dsimp only
    split_ifs with h1 h2 h3
    · simp
    · rcases hname : b.name with _ | name
      · simp
      · dsimp only
        split_ifs with h4
        · simp
        · rcases hlookup : List.lookup name env.tools with _ | ti
          · simp
          · dsimp only
            rcases hrun : ti.run slot (b.arguments.getD []) with e | r <;> simp
    · simp
    · simp

/-- C9: a request whose `Authorization` header is exactly `Bearer `
with nothing after the prefix is not rejected with 401: the header
check passes and the empty-string token is stored for the call (a
dispatched tool observes it), but because the resolver treats an empty
token as absent, credential resolution falls back to ambient default
credentials for that request. -/
theorem C9_empty_bearer_token :
    extract_bearer_token (some ("Bearer ".data)) = some "".data ∧
    (∀ (env : ServerEnv) (body : Except String ReqBody)
        (slot0 : Option PyStr),
      (mcp_endpoint env ⟨some ("Bearer ".data), body⟩ slot0).1.status ≠ 401) ∧
    (∀ (env : ServerEnv) (b : ReqBody) (slot0 : Option PyStr)
        (name : String) (ti : ToolInfo),
      b.method.getD "" = "tools/call" →
      b.name = some name → name ≠ "" →
      List.lookup name env.tools = some ti →
      (mcp_endpoint env ⟨some ("Bearer ".data), .ok b⟩ slot0).1 =
        (match ti.run (some "".data) (b.arguments.getD []) with
         | .ok r => { status := 200, body := .content r }
         | .error e => { status := 500, body := .errorMsg e })) ∧
    (∀ identity : String,
      _create_credentials (some "".data) (some identity) =
        .ok (.adc identity [_READ_ONLY_ANALYTICS_SCOPE])) := by
  refine ⟨by decide, ?_, ?_, fun identity => rfl⟩
  · intro env body slot0
    have hext : extract_bearer_token (some ("Bearer ".data)) = some [] := by
      decide
    simp only [mcp_endpoint, hext]
    exact handle_request_status_ne_401 env body (some [])
  · intro env b slot0 name ti hm hname hne hlookup
    have hext : extract_bearer_token (some ("Bearer ".data)) = some [] := by
      decide
    simp only [mcp_endpoint, hext]
    simp only [handle_request, hm, hname, hne, hlookup]
    show (match ti.run (some []) (b.arguments.getD []) with
          | .ok r => ({ status := 200, body := .content r } : HttpResponse)
          | .error e => { status := 500, body := .errorMsg e }) = _
    rcases hrun : ti.run (some []) (b.arguments.getD []) with e | r <;>
      simp [hrun]

/-- C9 witness: a request carrying the bare `Bearer ` header and an
unparsable body is answered with 500, not 401, and the resolver on the
stored empty token yields ambient default credentials. -/
theorem C9_empty_bearer_witness :
    (mcp_endpoint ⟨[]⟩ ⟨some ("Bearer ".data), .error "boom"⟩ none).1.status ≠
      401 ∧
    _create_credentials (some "".data) (some "svc") =
      .ok (.adc "svc" [_READ_ONLY_ANALYTICS_SCOPE]) :=
  ⟨C9_empty_bearer_token.2.1 ⟨[]⟩ (.error "boom") none,
   C9_empty_bearer_token.2.2.2 "svc"⟩

/-- C1: for two concurrent logical calls A (id 0) and B (id 1), where
A only ever sets `tokA` and B only ever sets `tokB`, every read of the
credential holder performed by A observes `tokA` (or nothing) and
never `tokB`, and vice versa, under every interleaving of their steps;
after A sets its token, A keeps observing `tokA` across arbitrary
interleaved steps of other calls as long as its own steps are reads;
and no operation of a different call can change (observe or clear)
what A reads. -/
theorem C1_token_isolation :
    (∀ tr : List (CallId × TokOp),
      (∀ t, ((0 : CallId), TokOp.set t) ∈ tr → t = "tokA".data) →
      (∀ t, ((1 : CallId), TokOp.set t) ∈ tr → t = "tokB".data) →
      get_access_token 0 (runTrace tr initCtx) ≠ some ("tokB".data) ∧
      get_access_token 1 (runTrace tr initCtx) ≠ some ("tokA".data)) ∧
    (∀ tr1 tr2 : List (CallId × TokOp),
      (∀ p ∈ tr2, p.1 = (0 : CallId) → p.2 = TokOp.get) →
      get_access_token 0
          (runTrace (tr1 ++ ((0 : CallId), TokOp.set ("tokA".data)) :: tr2)
            initCtx) =
        some ("tokA".data)) ∧
    (∀ (tr : List (CallId × TokOp)) (c : CallId) (o : TokOp), c ≠ 0 →
      get_access_token 0 (runTrace (tr ++ [(c, o)]) initCtx) =
        get_access_token 0 (runTrace tr initCtx)) := by
  refine ⟨?_, ?_, ?_⟩
  · intro tr hA hB
    constructor
    · exact runTrace_only_token (by decide) tr initCtx hA (by
        simp [initCtx])
    · exact runTrace_only_token (by decide) tr initCtx hB (by
        simp [initCtx])
  · intro tr1 tr2 hgets
    rw [runTrace_append, runTrace_cons]
    refine runTrace_set_then_gets tr2 _ hgets ?_
    simp [applyOp, set_access_token]
  · intro tr c o hc
    rw [runTrace_append]
    show applyOp c o (runTrace tr initCtx) 0 = _
    exact applyOp_other o (runTrace tr initCtx) (fun h => hc h.symm)

/-- C1 witness: with B setting and clearing `tokB` interleaved around
A setting `tokA`, a read by A still observes `tokA`. -/
theorem C1_token_isolation_witness :
    get_access_token 0
        (runTrace
          [((1 : CallId), TokOp.set ("tokB".data)),
           ((0 : CallId), TokOp.set ("tokA".data)),
           ((1 : CallId), TokOp.clear),
           ((0 : CallId), TokOp.get)] initCtx) =
      some ("tokA".data) :=
  C1_token_isolation.2.1 [((1 : CallId), TokOp.set ("tokB".data))]
    [((1 : CallId), TokOp.clear), ((0 : CallId), TokOp.get)] (by decide)

/-- C7: calling `run_report` with property `properties/12345`, one
dimension `city`, one metric `activeUsers`, and one date range from
`2024-01-01` to `2024-01-31` assembles an outbound `RunReportRequest`
with exactly those values and no optional field set; and for every
call, each optional field (dimension filter, metric filter, order
bys, limit, offset, currency code, quota flag) is applied to the
request only when the corresponding argument is present and
non-default. -/
theorem C7_run_report_assembly :
    build_run_report_request (.str ("properties/12345".data))
        [{ start_date := "2024-01-01", end_date := "2024-01-31" }]
        ["city"] ["activeUsers"] none none none none none none false =
      .ok { property := "properties/12345".data,
            dimensions := [{ name := "city" }],
            metrics := [{ name := "activeUsers" }],
            date_ranges :=
              [{ start_date := "2024-01-01", end_date := "2024-01-31" }],
            return_property_quota := false,
            dimension_filter := none, metric_filter := none,
            order_bys := none, limit := none, offset := none,
            currency_code := none } ∧
    (∀ (property_id : PyValue) (date_ranges : List DateRangeArg)
        (dimensions metrics : List String)
        (dimension_filter metric_filter : Option FilterDict)
        (order_bys : Option (List OrderByDict)) (limit offset : Option Int)
        (currency_code : Option String) (return_property_quota : Bool)
        (req : RunReportRequest),
      build_run_report_request property_id date_ranges dimensions metrics
          dimension_filter metric_filter order_bys limit offset
          currency_code return_property_quota = .ok req →
      req.dimension_filter.isSome = pyTruthyList dimension_filter ∧
      req.metric_filter.isSome = pyTruthyList metric_filter ∧
      req.order_bys.isSome = pyTruthyList order_bys ∧
      req.limit.isSome = pyTruthyInt limit ∧
      req.offset.isSome = pyTruthyInt offset ∧
      req.currency_code.isSome = pyTruthyString currency_code ∧
      req.return_property_quota = return_property_quota) := by
  constructor
  · decide
  · intro pid drs dims mets df mf obs lim off cc q req hok
    unfold build_run_report_request at hok
    rcases hprop : construct_property_rn pid with e | prop
    · rw [hprop] at hok
      exact absurd hok (by simp)
    · rw [hprop] at hok
      injection hok with hreq
      subst hreq
      refine ⟨by by_cases h : pyTruthyList df = true <;> simp [h],
        by by_cases h : pyTruthyList mf = true <;> simp [h],
        by by_cases h : pyTruthyList obs = true <;> simp [h],
        ?_, ?_, ?_, rfl⟩
      · by_cases h : pyTruthyInt lim = true
        · rcases lim with _ | x
          · simp [pyTruthyInt] at h
          · simp [h]
        · simp [h]
      · by_cases h : pyTruthyInt off = true
        · rcases off with _ | x
          · simp [pyTruthyInt] at h
          · simp [h]
        · simp [h]
      · by_cases h : pyTruthyString cc = true
        · rcases cc with _ | s
          · simp [pyTruthyString] at h
          · simp [h]
        · simp [h]

/-- C7 witness: a call with a limit of 100 and no other optional
argument produces a request in which only the limit field is set and
the quota flag carries its argument. -/
theorem C7_run_report_witness :
    ({ property := "properties/5".data, dimensions := [], metrics := [],
       date_ranges := [], return_property_quota := true,
       dimension_filter := none, metric_filter := none, order_bys := none,
       limit := some 100, offset := none,
       currency_code := none } : RunReportRequest).dimension_filter.isSome =
        pyTruthyList (none : Option FilterDict) ∧
    ({ property := "properties/5".data, dimensions := [], metrics := [],
       date_ranges := [], return_property_quota := true,
       dimension_filter := none, metric_filter := none, order_bys := none,
       limit := some 100, offset := none,
       currency_code := none } : RunReportRequest).metric_filter.isSome =
        pyTruthyList (none : Option FilterDict) ∧
    ({ property := "properties/5".data, dimensions := [], metrics := [],
       date_ranges := [], return_property_quota := true,
       dimension_filter := none, metric_filter := none, order_bys := none,
       limit := some 100, offset := none,
       currency_code := none } : RunReportRequest).order_bys.isSome =
        pyTruthyList (none : Option (List OrderByDict)) ∧
    ({ property := "properties/5".data, dimensions := [], metrics := [],
       date_ranges := [], return_property_quota := true,
       dimension_filter := none, metric_filter := none, order_bys := none,
       limit := some 100, offset := none,
       currency_code := none } : RunReportRequest).limit.isSome =
        pyTruthyInt (some 100) ∧
    ({ property := "properties/5".data, dimensions := [], metrics := [],
       date_ranges := [], return_property_quota := true,
       dimension_filter := none, metric_filter := none, order_bys := none,
       limit := some 100, offset := none,
       currency_code := none } : RunReportRequest).offset.isSome =
        pyTruthyInt none ∧
    ({ property := "properties/5".data, dimensions := [], metrics := [],
       date_ranges := [], return_property_quota := true,
       dimension_filter := none, metric_filter := none, order_bys := none,
       limit := some 100, offset := none,
       currency_code := none } : RunReportRequest).currency_code.isSome =
        pyTruthyString none ∧
    ({ property := "properties/5".data, dimensions := [], metrics := [],
       date_ranges := [], return_property_quota := true,
       dimension_filter := none, metric_filter := none, order_bys := none,
       limit := some 100, offset := none,
       currency_code := none } : RunReportRequest).return_property_quota =
        true :=
  C7_run_report_assembly.2 (.int 5) [] [] [] none none none (some 100) none
    none true _ (by decide)

end GA
